import Mathlib

/-
  Verification of the plot-ex backend (src/backend/server.py) against its
  natural-language specification.

  The embedding is a shallow translation of the Flask handlers and the
  `describing` helper into Lean.  Cells of a pandas DataFrame are modelled by
  `PyVal` (a rational number, a string, the internal NaN missing sentinel, or
  an explicit null as produced by `replace` with None).  External
  collaborators excluded by the spec (HTTP routing, `pd.read_csv` itself,
  `px.scatter` / the plotly renderer) are represented only by their observable
  interface: the parse outcome of an uploaded file and the keyword-argument
  dictionary handed to the renderer.
-/

namespace PlotEx

/-- A Python value as it appears in a pandas cell or a summary field:
a (rational-valued) number, a string, the float NaN used by pandas as the
missing-value sentinel, or an explicit None. -/
inductive PyVal where
  | num (q : ℚ)
  | str (s : String)
  | nan
  | none_
deriving DecidableEq

/-- `pd.isnull`: true exactly on the missing sentinels NaN and None. -/
def PyVal.isna : PyVal → Bool
  | .nan => true
  | .none_ => true
  | _ => false

/-- `df.replace(\x7bnp.nan: None\x7d)` applied to one cell (server.py lines
53-54 and 72-73): the NaN sentinel becomes an explicit null, everything else
is unchanged. -/
def replaceNan : PyVal → PyVal
  | .nan => .none_
  | v => v

/-- The pandas dtype of a column as inferred by `pd.read_csv`: `float64`
stands for the numeric dtypes (a numeric CSV column with missing cells is
read as float64; int64 behaves the same way in `describe`), `obj` for the
object dtype of text columns. -/
inductive Dtype where
  | float64
  | obj
deriving DecidableEq

/-- `str(dtype)` as used at server.py line 29. -/
def dtypeStr : Dtype → String
  | .float64 => "float64"
  | .obj => "object"

/-- A column header: name and inferred dtype. -/
structure ColMeta where
  name : String
  dtype : Dtype
deriving DecidableEq

/-- A pandas DataFrame: ordered named typed columns over row-aligned cells.
Rows are stored row-major; column `j` is read off by projecting index `j`
of every row. -/
structure DataFrame where
  headers : List ColMeta
  rows : List (List PyVal)
deriving DecidableEq

def DataFrame.colNames (df : DataFrame) : List String :=
  df.headers.map (fun h => h.name)

/-- The cells of column `j`, in row order. -/
def DataFrame.colCells (df : DataFrame) (j : Nat) : List PyVal :=
  df.rows.map (fun r => r.getD j .nan)

/-- `df.isnull().sum()` for one column: the number of missing cells. -/
def countNa (l : List PyVal) : Nat :=
  (l.filter (fun v => v.isna)).length

/-- The numeric values of a column, missing cells skipped (what the numeric
descriptive statistics of `df.describe` are computed from). -/
def numericCells (l : List PyVal) : List ℚ :=
  l.filterMap (fun v => match v with | .num q => some q | _ => none)

/-- The string values of a column, missing cells skipped. -/
def strCells (l : List PyVal) : List String :=
  l.filterMap (fun v => match v with | .str s => some s | _ => none)

/-! ### Helper arithmetic for the descriptive statistics -/

def sumQ (l : List ℚ) : ℚ := l.foldr (fun a b => a + b) 0

def insertQ (a : ℚ) : List ℚ → List ℚ
  | [] => [a]
  | b :: bs => if a ≤ b then a :: b :: bs else b :: insertQ a bs

/-- Insertion sort on rationals (ascending), used for min/quantiles/max. -/
def sortQ : List ℚ → List ℚ
  | [] => []
  | a :: as => insertQ a (sortQ as)

/-- The sample variance with the N-1 denominator.  `df.describe` reports the
sample standard deviation, i.e. the square root of this quantity; the square
root of a rational is irrational in general, so the embedding carries the
radicand — every property at stake concerns only whether the field is
missing, which the square root preserves. -/
def sampleVar (l : List ℚ) : ℚ :=
  let m := sumQ l / (l.length : ℚ)
  sumQ (l.map (fun x => (x - m) * (x - m))) / ((l.length : ℚ) - 1)

/-- Linear-interpolation quantile (the pandas default) on an already sorted
list: `h = p*(n-1)`, `i = floor h`, result `v_i + (h-i)*(v_(i+1) - v_i)`.
NaN on an empty list. -/
def quantileLin (sorted : List ℚ) (p : ℚ) : PyVal :=
  match sorted with
  | [] => .nan
  | a :: _ =>
    let n := sorted.length
    let h : ℚ := p * ((n : ℚ) - 1)
    let i : Nat := (Rat.floor h).toNat
    let g : ℚ := h - (i : ℚ)
    let vi := sorted.getD i a
    let vi1 := sorted.getD (i + 1) vi
    .num (vi + g * (vi1 - vi))

def countOcc (l : List String) (s : String) : Nat :=
  (l.filter (fun x => x = s)).length

/-- Order-preserving deduplication (first occurrences, in row order). -/
def dedupFirst (l : List String) : List String :=
  l.foldl (fun acc s => if s ∈ acc then acc else acc ++ [s]) []

/-- The modal value of an object column, ties broken by the value first
encountered in row order (the behaviour of `value_counts` underlying
`describe` for object columns).  `none` on an empty list. -/
def topOf (l : List String) : Option String :=
  (dedupFirst l).foldl
    (fun best s =>
      match best with
      | none => some s
      | some b => if countOcc l s > countOcc l b then some s else some b)
    none

/-! ### 4-significant-figure formatting (server.py lines 20-25)

`format_sigfig` renders a non-null value with `f"{value:.4g}"`.  The
embedding rounds the rational to 4 significant figures and prints it with
the standard rational printer; the exact digit string (scientific-notation
thresholds, tie-to-even rounding) is not modelled — no verified property
depends on the rendered digits, only on whether the field is null. -/

def absQ (q : ℚ) : ℚ := if q < 0 then -q else q

def pow10Q (e : Int) : ℚ :=
  if 0 ≤ e then (10 : ℚ) ^ e.toNat else 1 / (10 : ℚ) ^ (-e).toNat

def digits10 (n : Nat) : Nat := (toString n).length

/-- The decimal exponent of a nonzero rational: the `e` with
`10^e ≤ |q| < 10^(e+1)`. -/
def decExp (q : ℚ) : Int :=
  let a : Int := (digits10 q.num.natAbs : Int) - (digits10 q.den : Int)
  if pow10Q a ≤ absQ q then a else a - 1

def roundQ (q : ℚ) : Int := Rat.floor (q + 1 / 2)

/-- Round to 4 significant figures. -/
def sig4 (q : ℚ) : ℚ :=
  if q = 0 then 0
  else
    let scale := pow10Q (decExp q - 3)
    (roundQ (q / scale) : ℚ) * scale

def g4 (q : ℚ) : String := toString (sig4 q)

/-- server.py lines 20-23: format a value to 4 significant figures when
`pd.notnull(value)`, return it unchanged otherwise.  In `describing` it is
applied only to the `mean` and `std` entries, which are numbers or NaN. -/
def format_sigfig (v : PyVal) : PyVal :=
  match v with
  | .num q => .str (g4 q)
  | v => v

/-! ### The describing helper (server.py lines 15-34) -/

/-- One row of `missing_values_df` (lines 16-17): the column name and the
missing-cell count, under the column label `MissVal`. -/
structure MissRow where
  ColumnName : String
  MissVal : PyVal
deriving DecidableEq

/-- One row of the transposed `df.describe(include='all')` table
(lines 18-19): the full describe record of one column; entries that
`describe` does not produce for the column's dtype are NaN. -/
structure StatsRow where
  ColumnName : String
  count : PyVal
  mean : PyVal
  std : PyVal
  min : PyVal
  q25 : PyVal
  q50 : PyVal
  q75 : PyVal
  max : PyVal
  unique : PyVal
  top : PyVal
  freq : PyVal
deriving DecidableEq

/-- One row of `dtypes_df` (lines 27-29).  The source column is labelled
`Type`; that word is reserved in Lean, hence the primed field name. -/
structure DtypeRow where
  ColumnName : String
  Type' : String
deriving DecidableEq

/-- One row of the final summary table after `reindex`/rename
(lines 31-33), column order
ColumnName, Type, Rows, Miss, mean, std, min, 25%, 50%, 75%, max, unique,
top, freq. -/
structure FinalRow where
  ColumnName : String
  Type' : PyVal
  Rows : PyVal
  Miss : PyVal
  mean : PyVal
  std : PyVal
  min : PyVal
  q25 : PyVal
  q50 : PyVal
  q75 : PyVal
  max : PyVal
  unique : PyVal
  top : PyVal
  freq : PyVal
deriving DecidableEq

/-- Pair each element with its positional index, starting at `n`. -/
def withIdx {α : Type} : Nat → List α → List (Nat × α)
  | _, [] => []
  | n, a :: t => (n, a) :: withIdx (n + 1) t

def concatMap {α β : Type} (f : α → List β) : List α → List β
  | [] => []
  | a :: t => f a ++ concatMap f t

/-- The rows of `right` whose key equals `k` (the match set of a relational
join). -/
def joinMatches {R : Type} (right : List R) (kr : R → String) (k : String) :
    List R :=
  right.filter (fun r => kr r = k)

/-- `pd.merge(left, right, on='ColumnName', how='left')`: every left row,
in left order, paired with each right row of equal key, or with `none`
(an all-NaN right side) when no right row matches. -/
def leftJoin {L R J : Type} (left : List L) (right : List R)
    (kl : L → String) (kr : R → String) (mk : L → Option R → J) : List J :=
  concatMap
    (fun a =>
      match joinMatches right kr (kl a) with
      | [] => [mk a none]
      | rs => rs.map (fun r => mk a (some r)))
    left

/-- The `missing_values_df` row of the column at position `p` (lines 16-17). -/
def missRowAt (df : DataFrame) (p : Nat × ColMeta) : MissRow :=
  { ColumnName := p.2.name, MissVal := .num ((countNa (df.colCells p.1) : Nat) : ℚ) }

/-- The describe record of one column (line 18): numeric columns get count,
mean, sample std (NaN when fewer than 2 values), min, linear-interpolation
quartiles and max; object columns get count, distinct-value count, modal
value and its frequency; all other entries are NaN. -/
def statsFor (h : ColMeta) (cells : List PyVal) : StatsRow :=
  match h.dtype with
  | .float64 =>
    let xs := numericCells cells
    let ss := sortQ xs
    { ColumnName := h.name
      count := .num ((xs.length : Nat) : ℚ)
      mean := if xs.length = 0 then .nan else .num (sumQ xs / (xs.length : ℚ))
      std := if xs.length < 2 then .nan else .num (sampleVar xs)
      min := match ss.head? with | Option.none => .nan | some a => .num a
      q25 := quantileLin ss (1 / 4)
      q50 := quantileLin ss (1 / 2)
      q75 := quantileLin ss (3 / 4)
      max := match ss.getLast? with | Option.none => .nan | some a => .num a
      unique := .nan
      top := .nan
      freq := .nan }
  | .obj =>
    let xs := strCells cells
    { ColumnName := h.name
      count := .num (((cells.filter (fun v => !v.isna)).length : Nat) : ℚ)
      mean := .nan
      std := .nan
      min := .nan
      q25 := .nan
      q50 := .nan
      q75 := .nan
      max := .nan
      unique := .num (((dedupFirst xs).length : Nat) : ℚ)
      top := match topOf xs with | Option.none => .nan | some s => .str s
      freq := match topOf xs with
        | Option.none => .nan
        | some s => .num ((countOcc xs s : Nat) : ℚ) }

def statsAt (df : DataFrame) (p : Nat × ColMeta) : StatsRow :=
  statsFor p.2 (df.colCells p.1)

/-- Lines 24-25: `stats_df['mean'] = stats_df['mean'].apply(format_sigfig)`
and likewise for `std`. -/
def fmtStats (s : StatsRow) : StatsRow :=
  { s with mean := format_sigfig s.mean, std := format_sigfig s.std }

/-- The `dtypes_df` row of a column (lines 27-29). -/
def dtypeRowAt (p : Nat × ColMeta) : DtypeRow :=
  { ColumnName := p.2.name, Type' := dtypeStr p.2.dtype }

def sfield (s? : Option StatsRow) (f : StatsRow → PyVal) : PyVal :=
  match s? with
  | Option.none => .nan
  | some s => f s

/-- Lines 30-33: assemble the final row from the merged tables, then
`reindex` to `column_order` and rename.  `column_order` (line 31) names a
column `Miss`, but the missing-count column of `final_df` is named
`MissVal` (line 17); `reindex` therefore drops `MissVal` and inserts a
fresh all-NaN `Miss` column — the computed missing counts never reach the
output. -/
def finalRowOf (m : MissRow) (s? : Option StatsRow) (d? : Option DtypeRow) :
    FinalRow :=
  { ColumnName := m.ColumnName
    Type' := match d? with | Option.none => .nan | some d => .str d.Type'
    Rows := sfield s? (fun s => s.count)
    Miss := .nan
    mean := sfield s? (fun s => s.mean)
    std := sfield s? (fun s => s.std)
    min := sfield s? (fun s => s.min)
    q25 := sfield s? (fun s => s.q25)
    q50 := sfield s? (fun s => s.q50)
    q75 := sfield s? (fun s => s.q75)
    max := sfield s? (fun s => s.max)
    unique := sfield s? (fun s => s.unique)
    top := sfield s? (fun s => s.top)
    freq := sfield s? (fun s => s.freq) }

/-- Does the DataFrame have a numeric column?  `df.describe(include='all')`
produces `mean`/`std` columns exactly when one exists; otherwise line 24's
`stats_df['mean']` raises `KeyError`. -/
def hasNumeric (df : DataFrame) : Bool :=
  df.headers.any (fun h => match h.dtype with | .float64 => true | .obj => false)

/-- server.py lines 15-34, `describing(df)`: the missing-count table, the
transposed `describe(include='all')` table with `mean`/`std` formatted to 4
significant figures, and the dtype table, left-joined on `ColumnName` and
reindexed to the fixed column order.  Raising propagates as `Except.error`:
`df.describe` raises `ValueError` on a DataFrame without columns, and
line 24 raises `KeyError` when no numeric column exists (the describe table
then has no `mean` column). -/
def describing (df : DataFrame) : Except String (List FinalRow) :=
  if df.headers.isEmpty then
    .error "ValueError: Cannot describe a DataFrame without columns"
  else if hasNumeric df then
    .ok (leftJoin
      (leftJoin ((withIdx 0 df.headers).map (missRowAt df))
        (((withIdx 0 df.headers).map (statsAt df)).map fmtStats)
        (fun m => m.ColumnName) (fun s => s.ColumnName) (fun m s => (m, s)))
      ((withIdx 0 df.headers).map dtypeRowAt)
      (fun q => q.1.ColumnName) (fun d => d.ColumnName)
      (fun q d => finalRowOf q.1 q.2 d))
  else
    .error "KeyError: mean"

/-! ### Transport form and the route payloads (server.py lines 53-60, 72-79) -/

def flattenL {α : Type} : List (List α) → List α
  | [] => []
  | l :: ls => l ++ flattenL ls

/-- The values of a summary row in the fixed output column order. -/
def FinalRow.values (r : FinalRow) : List PyVal :=
  [.str r.ColumnName, r.Type', r.Rows, r.Miss, r.mean, r.std, r.min,
   r.q25, r.q50, r.q75, r.max, r.unique, r.top, r.freq]

/-- The summary-table column names after the rename at line 33
(`described_df_to_json.columns.tolist()`). -/
def column_order : List String :=
  ["ColumnName", "Type", "Rows", "Miss", "mean", "std", "min", "25%", "50%",
   "75%", "max", "unique", "top", "freq"]

/-- The JSON payload returned by `upload_csv` and `remove_na`: headers, the
data rows and the summary rows, the latter two after
`replace(\x7bnp.nan: None\x7d)` (lines 53-60 and 72-79). -/
structure Payload where
  headers : List String
  data : List (List PyVal)
  headers_described : List String
  data_described : List (List PyVal)
deriving DecidableEq

def mkPayload (df : DataFrame) (t : List FinalRow) : Payload :=
  { headers := df.colNames
    data := df.rows.map (fun r => r.map replaceNan)
    headers_described := column_order
    data_described := t.map (fun r => r.values.map replaceNan) }

/-- Every `PyVal` occurring anywhere in a payload. -/
def payloadValues (p : Payload) : List PyVal :=
  p.headers.map PyVal.str ++ flattenL p.data
    ++ p.headers_described.map PyVal.str ++ flattenL p.data_described

/-! ### The dataset session and the three routes -/

/-- The process-wide globals `original_df` and `processed_df`
(server.py lines 12-13). -/
structure Session where
  original : Option DataFrame := Option.none
  processed : Option DataFrame := Option.none
deriving DecidableEq

/-- The observable outcome of a route: a JSON payload, an error response
returned with an HTTP status code, or an exception that escapes the handler
uncaught (Flask then answers 500). -/
inductive Resp where
  | ok (p : Payload)
  | err (msg : String) (code : Nat)
  | exn (msg : String)
deriving DecidableEq

/-- The file part of an upload request.  `parsed` is the outcome of
`pd.read_csv` on the payload bytes — CSV parsing itself is an external
collaborator, so only its result (a DataFrame, or the exception it raises)
enters the model. -/
structure UploadFile where
  filename : String
  parsed : Except String DataFrame

/-- server.py lines 40-63, `upload_csv`.  Missing file part and empty
filename are rejected up front (400).  Inside the `try`, a `read_csv`
failure is caught before any global is assigned; once parsing succeeds,
`original_df` and `processed_df` are both set, and only then is
`describing` run — its exception is caught and returned as a 500 error,
but the globals keep their new values. -/
def upload_csv (s : Session) (file? : Option UploadFile) : Session × Resp :=
  match file? with
  | Option.none => (s, .err "No file part" 400)
  | some f =>
    if f.filename = "" then (s, .err "No selected file" 400)
    else
      match f.parsed with
      | .error e => (s, .err e 500)
      | .ok df =>
        let s1 : Session := { original := some df, processed := some df }
        match describing df with
        | .error e => (s1, .err e 500)
        | .ok t => (s1, .ok (mkPayload df t))

/-- `df.dropna()`: drop every row containing a missing cell. -/
def dropna (df : DataFrame) : DataFrame :=
  { df with rows := df.rows.filter (fun r => r.all (fun v => !v.isna)) }

/-- server.py lines 65-80, `remove_na`.  With no uploaded data the request
is rejected (400).  Otherwise `processed_df` is reassigned to
`original_df.dropna()` at line 70 *before* `describing` runs at line 71;
the route has no try/except, so a `describing` exception escapes uncaught —
with the global already replaced. -/
def remove_na (s : Session) : Session × Resp :=
  match s.original with
  | Option.none => (s, .err "No data uploaded yet" 400)
  | some odf =>
    let p := dropna odf
    let s1 : Session := { s with processed := some p }
    match describing p with
    | .error e => (s1, .exn e)
    | .ok t => (s1, .ok (mkPayload p t))

/-! ### The plot-spec builder (server.py lines 82-123) -/

/-- A PlotRequest as read from the request JSON with `request_data.get`:
absent keys are `none`; `size` and `opacity` default to 6 and 0.8 at
lines 95-96. -/
structure PlotRequest where
  x : Option String := Option.none
  y : Option String := Option.none
  color : Option String := Option.none
  facet_col : Option String := Option.none
  facet_row : Option String := Option.none
  symbol : Option String := Option.none
  size : Option ℚ := Option.none
  opacity : Option ℚ := Option.none
deriving DecidableEq

/-- Python truthiness of an optional string: `None` and `""` are falsy. -/
def truthyS : Option String → Bool
  | Option.none => false
  | some s => !(s = "")

/-- Keep an optional field only when truthy — lines 107-114 add `color`,
`facet_col`, `facet_row`, `symbol` to `plot_params` only under `if field:`,
so an absent or empty value contributes no key at all. -/
def keepTruthy (o : Option String) : Option String :=
  if truthyS o then o else Option.none

/-- The keyword-argument dictionary handed to `px.scatter` (lines 102-114):
the mandatory base `x`, `y`, `data_frame` plus any truthy optional channel.
`none` in an optional field means the key is absent from the dictionary. -/
structure PlotParams where
  x : String
  y : String
  data_frame : DataFrame
  color : Option String := Option.none
  facet_col : Option String := Option.none
  facet_row : Option String := Option.none
  symbol : Option String := Option.none
deriving DecidableEq

/-- The keys present in the constructed spec, in construction order. -/
def specKeys (p : PlotParams) : List String :=
  ["x", "y", "data_frame"]
    ++ (if p.color.isSome then ["color"] else [])
    ++ (if p.facet_col.isSome then ["facet_col"] else [])
    ++ (if p.facet_row.isSome then ["facet_row"] else [])
    ++ (if p.symbol.isSome then ["symbol"] else [])

/-- The observable outcome of `plot_scatter`: an early error response, or a
constructed spec — the `px.scatter` kwargs plus the uniform marker overlay
applied by `fig.update_traces(marker=dict(size=size, opacity=opacity))` at
line 117.  `px.scatter` and the plotly figure machinery are the external
renderer; the builder's job ends at handing them this data. -/
inductive PlotResult where
  | err (msg : String) (code : Nat)
  | ok (params : PlotParams) (markerSize markerOpacity : ℚ)
deriving DecidableEq

/-- server.py lines 82-117, `plot_scatter` up to the renderer call: reject
when no processed data exists (400) or when `x` or `y` is absent/empty
(400, line 98); otherwise build the kwargs from the truthy fields and apply
the size/opacity overlay.  No range check of size/opacity and no
column-existence check is performed. -/
def plot_scatter (processed_df : Option DataFrame) (req : PlotRequest) :
    PlotResult :=
  match processed_df with
  | Option.none => .err "No processed data available" 400
  | some df =>
    let size := req.size.getD 6
    let opacity := req.opacity.getD (4 / 5)
    if !truthyS req.x || !truthyS req.y then
      .err "x and y axis must be specified" 400
    else
      .ok
        { x := req.x.getD "", y := req.y.getD "", data_frame := df
          color := keepTruthy req.color
          facet_col := keepTruthy req.facet_col
          facet_row := keepTruthy req.facet_row
          symbol := keepTruthy req.symbol }
        size opacity

/-- The `plot_scatter` route as a state transition: the handler reads
`processed_df` and assigns no global, so the session is returned as-is. -/
def plot_scatter_route (s : Session) (req : PlotRequest) :
    Session × PlotResult :=
  (s, plot_scatter s.processed req)

/-! ### Structural lemmas about the joins -/

theorem withIdx_map_val {α β : Type} (f : α → β) :
    ∀ (n : Nat) (l : List α), (withIdx n l).map (fun p => f p.2) = l.map f := by
  intro n l
  induction l generalizing n with
  | nil => rfl
  | cons a t ih => simp [withIdx, ih]

theorem withIdx_length {α : Type} :
    ∀ (n : Nat) (l : List α), (withIdx n l).length = l.length := by
  intro n l
  induction l generalizing n with
  | nil => rfl
  | cons a t ih => simp [withIdx, ih]

theorem joinMatches_map_nil {α R : Type} (g : α → R) (kr : R → String)
    (k : String) (xs : List α) (h : ∀ x ∈ xs, kr (g x) ≠ k) :
    joinMatches (xs.map g) kr k = [] := by
  induction xs with
  | nil => rfl
  | cons a t ih =>
    simp only [joinMatches, List.map_cons, List.filter_cons]
    rw [if_neg (by simpa using h a (List.mem_cons_self a t))]
    exact ih (fun x hx => h x (List.mem_cons_of_mem a hx))

theorem joinMatches_map_single {α R : Type} (g : α → R) (key : α → String)
    (kr : R → String) (hg : ∀ x, kr (g x) = key x) :
    ∀ (xs : List α), (xs.map key).Nodup → ∀ x ∈ xs,
      joinMatches (xs.map g) kr (key x) = [g x] := by
  intro xs
  induction xs with
  | nil => intro _ x hx; cases hx
  | cons a t ih =>
    intro hnd x hx
    rw [List.map_cons, List.nodup_cons] at hnd
    rcases List.mem_cons.mp hx with rfl | hxt
    · simp only [joinMatches, List.map_cons, List.filter_cons]
      rw [if_pos (by simp [hg])]
      have : joinMatches (t.map g) kr (key x) = [] := by
        refine joinMatches_map_nil g kr (key x) t (fun y hy => ?_)
        rw [hg y]
        intro hEq
        exact hnd.1 (hEq ▸ List.mem_map_of_mem key hy)
      simpa [joinMatches] using this
    · have hne : kr (g a) ≠ key x := by
        rw [hg a]
        intro hEq
        exact hnd.1 (hEq ▸ List.mem_map_of_mem key hxt)
      simp only [joinMatches, List.map_cons, List.filter_cons]
      rw [if_neg (by simpa using hne)]
      simpa [joinMatches] using ih hnd.2 x hxt

theorem leftJoin_map_eq {α L R J : Type} (f : α → L) (kl : L → String)
    (kr : R → String) (mk : L → Option R → J) (ys : List R) (g : α → R) :
    ∀ (xs : List α), (∀ x ∈ xs, joinMatches ys kr (kl (f x)) = [g x]) →
      leftJoin (xs.map f) ys kl kr mk
        = xs.map (fun x => mk (f x) (some (g x))) := by
  intro xs
  induction xs with
  | nil => intro _; rfl
  | cons a t ih =>
    intro h
    simp only [List.map_cons, leftJoin, concatMap]
    rw [h a (List.mem_cons_self a t)]
    have ht := ih (fun x hx => h x (List.mem_cons_of_mem a hx))
    simp only [leftJoin] at ht
    rw [ht]
    rfl

theorem statsFor_ColumnName (h : ColMeta) (cells : List PyVal) :
    (statsFor h cells).ColumnName = h.name := by
  cases h with
  | mk nm dt => cases dt <;> rfl

/-- Characterization of a successful `describing` run: with unique column
names (the dataset invariant), at least one column and at least one numeric
column, the summary is the column list itself, in order, each column mapped
to its assembled final row. -/
theorem describing_ok (df : DataFrame) (hnd : df.colNames.Nodup)
    (hne : df.headers.isEmpty = false) (hnum : hasNumeric df = true) :
    describing df
      = .ok ((withIdx 0 df.headers).map (fun p =>
          finalRowOf (missRowAt df p) (some (fmtStats (statsAt df p)))
            (some (dtypeRowAt p)))) := by
  have hkey : ((withIdx 0 df.headers).map (fun p => p.2.name)).Nodup := by
    rw [withIdx_map_val (fun h => h.name) 0 df.headers]
    exact hnd
  have hinner :
      leftJoin ((withIdx 0 df.headers).map (missRowAt df))
          (((withIdx 0 df.headers).map (statsAt df)).map fmtStats)
          (fun m => m.ColumnName) (fun s => s.ColumnName) (fun m s => (m, s))
        = (withIdx 0 df.headers).map
            (fun p => (missRowAt df p, some (fmtStats (statsAt df p)))) := by
    rw [List.map_map]
    refine leftJoin_map_eq (missRowAt df) (fun m => m.ColumnName)
      (fun s => s.ColumnName) (fun m s => (m, s)) _
      (fun p => fmtStats (statsAt df p)) (withIdx 0 df.headers) ?_
    intro p hp
    simpa [Function.comp] using joinMatches_map_single
      (fun p => fmtStats (statsAt df p)) (fun p => p.2.name)
      (fun s => s.ColumnName) (fun p => statsFor_ColumnName p.2 _)
      (withIdx 0 df.headers) hkey p hp
  have houter :
      leftJoin ((withIdx 0 df.headers).map
            (fun p => (missRowAt df p, some (fmtStats (statsAt df p)))))
          ((withIdx 0 df.headers).map dtypeRowAt)
          (fun q => q.1.ColumnName) (fun d => d.ColumnName)
          (fun q d => finalRowOf q.1 q.2 d)
        = (withIdx 0 df.headers).map (fun p =>
            finalRowOf (missRowAt df p) (some (fmtStats (statsAt df p)))
              (some (dtypeRowAt p))) := by
    refine leftJoin_map_eq
      (fun p => (missRowAt df p, some (fmtStats (statsAt df p))))
      (fun q => q.1.ColumnName) (fun d => d.ColumnName)
      (fun q d => finalRowOf q.1 q.2 d) _ dtypeRowAt (withIdx 0 df.headers) ?_
    intro p hp
    exact joinMatches_map_single dtypeRowAt (fun p => p.2.name)
      (fun d => d.ColumnName) (fun p => rfl) (withIdx 0 df.headers) hkey p hp
  unfold describing
  rw [hne, hnum]
  simp only [Bool.false_eq_true, if_false, if_true, hinner, houter]

/-! ### Concrete sample data -/

/-- One numeric column `a` with rows `[1, missing]`: exactly one missing
cell. -/
def dfC1 : DataFrame := ⟨[⟨"a", .float64⟩], [[.num 1], [.nan]]⟩

/-- One text column `b` with a single row: a well-formed dataset with no
numeric column. -/
def dfC3 : DataFrame := ⟨[⟨"b", .obj⟩], [[.str "x"]]⟩

/-- One text column `b` with rows `["x", missing]`. -/
def dfC4 : DataFrame := ⟨[⟨"b", .obj⟩], [[.str "x"], [.nan]]⟩

/-- The session after ingesting `dfC4`. -/
def sessC4 : Session := { original := some dfC4, processed := some dfC4 }

/-- The pristine session: nothing uploaded yet. -/
def sessC4b : Session := { original := Option.none, processed := Option.none }

/-- One numeric column `a` with one complete row. -/
def dfC10 : DataFrame := ⟨[⟨"a", .float64⟩], [[.num 2]]⟩

/-- The session after ingesting `dfC10`. -/
def sessC10 : Session := { original := some dfC10, processed := some dfC10 }

/-- The transported `Miss` fields of a summary outcome: what the client
receives as the per-column missing counts. -/
def missTransported (e : Except String (List FinalRow)) :
    Option (List PyVal) :=
  match e with
  | .ok t => some (t.map (fun r => replaceNan r.Miss))
  | .error _ => Option.none

/-! ### Claims -/

/-- C1: the spec says every ColumnSummary reports a missing count equal to
the number of missing cells of its column.  The code computes these counts
(lines 16-17, column `MissVal`) but the `reindex` at lines 31-32 targets the
name `Miss`, which is not a column of the merged frame, so pandas replaces
the counts with a fresh all-NaN column: the reported missing count is null
for every column.  Evaluated at the failing input `dfC1` (one missing cell
in column `a`): the dataset has 1 missing cell, the summary transports `Miss`
as null. -/
theorem C1_missing_count_reported_null :
    countNa (dfC1.colCells 0) = 1
      ∧ missTransported (describing dfC1) = some [.none_] := by
  exact ⟨by decide, rfl⟩

/-- C3 counterexample: `summarize` is not total — on the well-formed
one-text-column dataset `dfC3` (no numeric column), `df.describe` produces
no `mean` column and line 24 raises `KeyError`, so `describing` fails
rather than returning a summary sequence. -/
theorem C3_counterexample : describing dfC3 = .error "KeyError: mean" := rfl

/-- C3 amended: `describing` returns a summary sequence exactly for the
datasets with at least one column and at least one numeric column; on a
dataset without columns `describe` raises `ValueError`, and on a dataset
whose columns are all non-numeric line 24 raises `KeyError: mean`. -/
theorem C3_amended_totality (df : DataFrame) :
    (∃ t, describing df = .ok t)
      ↔ (df.headers.isEmpty = false ∧ hasNumeric df = true) := by
  cases hE : df.headers.isEmpty <;> cases hN : hasNumeric df <;>
    simp [describing, hE, hN]

/-- C9: dropping incomplete rows is idempotent:
`dropna (dropna df) = dropna df` — a row kept by the filter has no missing
cell, so it passes the filter again. -/
theorem C9_dropna_idempotent (df : DataFrame) :
    dropna (dropna df) = dropna df := by
  unfold dropna
  simp [List.filter_filter]

/-- C10: an ingest request that fails before a dataset is parsed — no file
part, an empty filename, or `pd.read_csv` raising on the payload — returns
with both session globals exactly as they were: the assignments at lines
50-51 are reached only after `read_csv` returns successfully. -/
theorem C10_failed_ingest_preserves_session (s : Session)
    (f? : Option UploadFile)
    (h : f? = Option.none
        ∨ ∃ f, f? = some f ∧ (f.filename = "" ∨ ∃ e, f.parsed = .error e)) :
    (upload_csv s f?).1 = s := by
  rcases h with rfl | ⟨f, rfl, hf⟩
  · rfl
  · rcases hf with hfn | ⟨e, he⟩
    · simp [upload_csv, hfn]
    · by_cases hq : f.filename = ""
      · simp [upload_csv, hq]
      · simp [upload_csv, hq, he]

/-- C10 witness: the pristine session is preserved by an upload request
with no file part. -/
theorem C10_witness : (upload_csv sessC10 Option.none).1 = sessC10 :=
  C10_failed_ingest_preserves_session sessC10 Option.none (Or.inl rfl)

/-- Two numeric columns `a` and `b` with one row. -/
def dfC2 : DataFrame :=
  ⟨[⟨"a", .float64⟩, ⟨"b", .float64⟩], [[.num 1, .num 2]]⟩

/-- A plot request with markerOpacity = 1.5, outside [0,1]. -/
def reqC2 : PlotRequest :=
  { x := some "a", y := some "b", opacity := some (3 / 2) }

/-- C2 counterexample: with markerOpacity = 3/2 — outside [0,1] — the
builder does not fail with a ValidationError: it constructs the spec and
applies the out-of-range opacity.  (In the running system the constructed
figure is then rejected by the external plotly renderer, surfacing as the
generic 500 `Error in plot_scatter` message of line 121, not as a
pre-construction validation failure.) -/
theorem C2_counterexample :
    (1 : ℚ) < 3 / 2
      ∧ plot_scatter (some dfC2) reqC2
          = .ok { x := "a", y := "b", data_frame := dfC2 } 6 (3 / 2) := by
  exact ⟨by norm_num, rfl⟩

/-- C2 amended: `plot_scatter` performs no range validation of markerSize
or markerOpacity: whenever `x` and `y` are supplied (truthy), it constructs
the spec and passes whatever size/opacity values the request carries —
defaults 6 and 0.8 when absent — to the renderer; out-of-range values are
rejected only downstream, by the external renderer. -/
theorem C2_no_marker_validation (df : DataFrame) (req : PlotRequest)
    (hx : truthyS req.x = true) (hy : truthyS req.y = true) :
    plot_scatter (some df) req
      = .ok
          { x := req.x.getD "", y := req.y.getD "", data_frame := df
            color := keepTruthy req.color
            facet_col := keepTruthy req.facet_col
            facet_row := keepTruthy req.facet_row
            symbol := keepTruthy req.symbol }
          (req.size.getD 6) (req.opacity.getD (4 / 5)) := by
  simp [plot_scatter, hx, hy]

/-- C2 witness: the amended claim at a request carrying opacity 3/2 and a
negative size — both pass through unvalidated. -/
theorem C2_witness :
    plot_scatter (some dfC2)
        { x := some "a", y := some "b", size := some (-5),
          opacity := some (3 / 2) }
      = .ok { x := "a", y := "b", data_frame := dfC2 } (-5) (3 / 2) :=
  C2_no_marker_validation dfC2
    { x := some "a", y := some "b", size := some (-5), opacity := some (3 / 2) }
    rfl rfl

/-- One numeric column `a` with one row. -/
def dfC5 : DataFrame := ⟨[⟨"a", .float64⟩], [[.num 1]]⟩

/-- A plot request whose `x` names no column of `dfC5`. -/
def reqC5 : PlotRequest := { x := some "zzz", y := some "a" }

/-- C5 counterexample: `"zzz"` is not a column of the dataset, yet the
builder does not fail with a ValidationError — it constructs the spec with
the unknown column name.  (Downstream, `px.scatter` raises and line 120's
handler turns that into the generic 500 construction error.) -/
theorem C5_counterexample :
    ("zzz" ∈ dfC5.colNames → False)
      ∧ plot_scatter (some dfC5) reqC5
          = .ok { x := "zzz", y := "a", data_frame := dfC5 } 6 (4 / 5) := by
  exact ⟨by decide, rfl⟩

/-- C5 amended: the builder's only eager validation is presence: with a
dataset loaded, `plot_scatter` fails with the 400 validation error exactly
when `x` or `y` is absent or empty; whether the names exist as columns of
the dataset is never checked before construction. -/
theorem C5_presence_only_validation (df : DataFrame) (req : PlotRequest) :
    plot_scatter (some df) req = .err "x and y axis must be specified" 400
      ↔ (truthyS req.x = false ∨ truthyS req.y = false) := by
  cases hx : truthyS req.x <;> cases hy : truthyS req.y <;>
    simp [plot_scatter, hx, hy]

/-- Two numeric columns for the C6 witness. -/
def dfC6 : DataFrame :=
  ⟨[⟨"a", .float64⟩, ⟨"b", .float64⟩], [[.num 1, .num 2]]⟩

/-- C6: a request supplying only `x` and `y` (each optional channel absent
or empty) produces a spec holding exactly the base keys `x`, `y`,
`data_frame` with the defaulted marker size 6 and opacity 0.8; absent or
empty optional fields contribute no key at all — they are never emitted as
null. -/
theorem C6_base_spec_defaults (df : DataFrame) (x y : String)
    (c fc fr sy : Option String) (hx : x ≠ "") (hy : y ≠ "")
    (hc : truthyS c = false) (hfc : truthyS fc = false)
    (hfr : truthyS fr = false) (hsy : truthyS sy = false) :
    plot_scatter (some df)
        { x := some x, y := some y, color := c, facet_col := fc,
          facet_row := fr, symbol := sy }
      = .ok { x := x, y := y, data_frame := df } 6 (4 / 5)
    ∧ specKeys { x := x, y := y, data_frame := df }
        = ["x", "y", "data_frame"] := by
  constructor
  · have htx : truthyS (some x) = true := by simp [truthyS, hx]
    have hty : truthyS (some y) = true := by simp [truthyS, hy]
    simp [plot_scatter, keepTruthy, htx, hty, hc, hfc, hfr, hsy]
  · simp [specKeys]

/-- C6 witness: the base request over `dfC6`. -/
theorem C6_witness :
    plot_scatter (some dfC6) { x := some "a", y := some "b" }
        = .ok { x := "a", y := "b", data_frame := dfC6 } 6 (4 / 5)
      ∧ specKeys { x := "a", y := "b", data_frame := dfC6 }
          = ["x", "y", "data_frame"] :=
  C6_base_spec_defaults dfC6 "a" "b" Option.none Option.none Option.none
    Option.none (by decide) (by decide) rfl rfl rfl rfl

/-- C4 counterexample: a failed filter request does corrupt the session.
Starting from the session holding the text-only dataset `dfC4` (reachable:
uploading it sets both globals before `describing`'s failure is caught),
`remove_na` reassigns `processed_df` at line 70 and only then calls
`describing`, which raises `KeyError: mean` uncaught — the request fails
with the working dataset already replaced. -/
theorem C4_counterexample :
    (remove_na sessC4).2 = .exn "KeyError: mean"
      ∧ (remove_na sessC4).1.processed ≠ sessC4.processed := by
  exact ⟨rfl, by decide⟩

/-- C4 amended: a failed plot request leaves the session untouched (the
handler assigns no global), and a filter request leaves `original`
untouched and, when rejected because no dataset exists, leaves the whole
session untouched; but a filter request that fails during summary
computation has already replaced `working` with the filtered dataset. -/
theorem C4_failure_state_preservation :
    (∀ (s : Session) (req : PlotRequest), (plot_scatter_route s req).1 = s)
      ∧ (∀ s : Session, s.original = Option.none
            → remove_na s = (s, .err "No data uploaded yet" 400))
      ∧ (∀ s : Session, (remove_na s).1.original = s.original) := by
  refine ⟨fun s req => rfl, fun s h => ?_, fun s => ?_⟩
  · simp [remove_na, h]
  · cases ho : s.original with
    | none => simp [remove_na, ho]
    | some odf =>
      cases hd : describing (dropna odf) <;> simp [remove_na, ho, hd]

/-- C4 witness: the amended claim at the pristine session and a concrete
plot request. -/
theorem C4_witness :
    (plot_scatter_route sessC4 reqC5).1 = sessC4
      ∧ remove_na sessC4b = (sessC4b, .err "No data uploaded yet" 400) :=
  ⟨C4_failure_state_preservation.1 sessC4 reqC5,
   C4_failure_state_preservation.2.1 sessC4b rfl⟩

theorem replaceNan_ne_nan (v : PyVal) : replaceNan v ≠ .nan := by
  cases v <;> simp [replaceNan]

theorem mem_flattenL {α : Type} (a : α) :
    ∀ ls : List (List α), a ∈ flattenL ls ↔ ∃ l ∈ ls, a ∈ l := by
  intro ls
  induction ls with
  | nil => simp [flattenL]
  | cons l ls ih => simp [flattenL, ih]

/-- One numeric column `a` with a single value: one non-missing numeric
cell, so the sample standard deviation is undefined. -/
def dfC7 : DataFrame := ⟨[⟨"a", .float64⟩], [[.num 5]]⟩

def tC7 : List FinalRow := (describing dfC7).toOption.getD []

/-- C8: whenever `describing` returns a summary for a dataset with the
unique-column-names invariant, it returns exactly one row per column of the
dataset, carrying the column names in the dataset's column order — the
assembly is a left join keyed on `ColumnName` over tables each holding one
row per column. -/
theorem C8_one_row_per_column (df : DataFrame) (t : List FinalRow)
    (hnd : df.colNames.Nodup) (h : describing df = .ok t) :
    t.map (fun r => r.ColumnName) = df.colNames
      ∧ t.length = df.headers.length := by
  by_cases hE : df.headers.isEmpty
  · simp [describing, hE] at h
  · by_cases hN : hasNumeric df
    · rw [describing_ok df hnd (by simpa using hE) hN] at h
      injection h with h
      subst h
      constructor
      · rw [List.map_map]
        exact withIdx_map_val (fun h => h.name) 0 df.headers
      · simp [withIdx_length]
    · simp [describing, hE, hN] at h

/-- Two columns (one numeric, one text) with one row, for the C8 witness. -/
def dfC8 : DataFrame :=
  ⟨[⟨"a", .float64⟩, ⟨"b", .obj⟩], [[.num 1, .str "u"]]⟩

def tC8 : List FinalRow := (describing dfC8).toOption.getD []

/-- C8 witness: the summary of `dfC8` has one row per column, in column
order. -/
theorem C8_witness :
    tC8.map (fun r => r.ColumnName) = dfC8.colNames
      ∧ tC8.length = dfC8.headers.length :=
  C8_one_row_per_column dfC8 tC8 (by decide) rfl

/-- C7: (1) the transport form of a route payload — raw data cells and
every summary field after `replace(nan, None)` — never contains the NaN
sentinel: only numbers, strings or explicit nulls; (2) in particular, for a
numeric column with fewer than 2 non-missing values the summary row's
standard deviation transports to an explicit null (internally NaN from the
N-1 sample computation, passed through unchanged by `format_sigfig` and
normalized to null at the boundary). -/
theorem C7_transport_no_nan :
    (∀ (df : DataFrame) (t : List FinalRow) (v : PyVal),
        v ∈ payloadValues (mkPayload df t) → v ≠ .nan)
      ∧ (∀ (df : DataFrame) (t : List FinalRow), df.colNames.Nodup
            → describing df = .ok t
            → ∀ p ∈ withIdx 0 df.headers, p.2.dtype = .float64
            → (numericCells (df.colCells p.1)).length < 2
            → ∃ r ∈ t, r.ColumnName = p.2.name ∧ replaceNan r.std = .none_) := by
  constructor
  · intro df t v hv
    simp only [payloadValues, mkPayload] at hv
    rcases List.mem_append.mp hv with hv | hv
    · rcases List.mem_append.mp hv with hv | hv
      · rcases List.mem_append.mp hv with hv | hv
        · obtain ⟨s, _, rfl⟩ := List.mem_map.mp hv
          simp
        · obtain ⟨l, hl, hvl⟩ := (mem_flattenL v _).mp hv
          obtain ⟨r, _, rfl⟩ := List.mem_map.mp hl
          obtain ⟨u, _, rfl⟩ := List.mem_map.mp hvl
          exact replaceNan_ne_nan u
      · obtain ⟨s, _, rfl⟩ := List.mem_map.mp hv
        simp
    · obtain ⟨l, hl, hvl⟩ := (mem_flattenL v _).mp hv
      obtain ⟨r, _, rfl⟩ := List.mem_map.mp hl
      obtain ⟨u, _, rfl⟩ := List.mem_map.mp hvl
      exact replaceNan_ne_nan u
  · intro df t hnd h p hp hdt hlen
    by_cases hE : df.headers.isEmpty
    · simp [describing, hE] at h
    · by_cases hN : hasNumeric df
      · rw [describing_ok df hnd (by simpa using hE) hN] at h
        injection h with h
        subst h
        refine ⟨_, List.mem_map_of_mem _ hp, rfl, ?_⟩
        have hstd : (statsAt df p).std = PyVal.nan := by
          obtain ⟨j, nm, dt⟩ := p
          simp only at hdt hlen
          subst hdt
          simp only [statsAt, statsFor]
          rw [if_pos hlen]
        simp [finalRowOf, sfield, fmtStats, hstd, format_sigfig, replaceNan]
      · simp [describing, hE, hN] at h

/-- C7 witness: part (1) at a header string of `dfC7`, part (2) at the
single-value numeric column of `dfC7`, whose transported std is null. -/
theorem C7_witness :
    (PyVal.str "a" ≠ PyVal.nan)
      ∧ ∃ r ∈ tC7, r.ColumnName = "a" ∧ replaceNan r.std = .none_ :=
  ⟨C7_transport_no_nan.1 dfC7 tC7 (PyVal.str "a") (by decide),
   C7_transport_no_nan.2 dfC7 tC7 (by decide) rfl (0, ⟨"a", .float64⟩)
     (by decide) rfl (by decide)⟩

end PlotEx
